import Mathlib

/-!
Shallow embedding of the snowpack `ts-es-karma` plugin (src/src/index.ts,
the watch-mode variant with buffered write-intents, and src/src/eslint.ts,
the lint worker), together with proofs of the testable properties stated
for it.

The embedding mirrors the source closures:
* the check-pipeline round state (`status`, `pendingWriteFiles`,
  `absBuildDir`) and its hooks `host.createProgram`, `reportDiagnostic`,
  `host.writeFile`, `flushWrites`, `reportWatchStatusChanged`;
* the lint gate `initEslint` and the worker message handler of eslint.ts;
* the artifact publisher `outputFileForKarma`;
* the deferred karma start slot `startKarmaServer`;
* the change router `addWatched` / `onChanged`.

Logging calls (`info`, `error`, `debug`, console prints) are embedded as
`LogEvent` values carrying the interpolated data; all functions are total,
mirroring the fact that the corresponding source paths do not throw.
-/

namespace TsEsKarma

/-- One logging call of the source, with the data it interpolates. -/
inductive LogEvent where
  /-- `error("Can't generate file for karma. Got ${statusCode} for ${file} ...")` -/
  | fetchStatus (file : String) (statusCode : Nat)
  /-- `error("Can't request ${file} for from snowpack-server", e)` -/
  | requestFailed (file : String) (err : String)
  /-- `error("Can't write ${karmaFile} for karma", err)` -/
  | writeFailed (karmaFile : String) (err : String)
  /-- `error("Unexpected write of ${file} from typescript postponed")` -/
  | unexpectedWrite (file : String)
  /-- `error("Failed to execute typescript-watcher for ${file}", err)` -/
  | watcherFailed (file : String) (cbId : Nat)
  /-- `error('Eslint Failed', err)` in the worker -/
  | eslintFailed (err : String)
  /-- `error('Unknown message type')` in the worker -/
  | unknownMessage
  /-- `error('missing eslint formatter')` stub formatter -/
  | missingFormatter
  /-- an `info(...)` line with a fixed message -/
  | infoMsg (msg : String)
  /-- a `debug(...)` line with a fixed message -/
  | debugMsg (msg : String)
  /-- `console.log` / `console.info` of a formatted diagnostic -/
  | diagPrinted (code : Nat)
deriving DecidableEq, Repr

/-- The `Status` enum of `initTypescript`. -/
inductive Status where
  | Running
  | Done
  | HasError
deriving DecidableEq, Repr

/-- The mutable closure state of `initTypescript`: the round status, the
`pendingWriteFiles` record (modelled as its key list in insertion order)
and the captured `absBuildDir`. -/
structure TsState where
  status : Status
  pendingWriteFiles : List String
  absBuildDir : String
deriving DecidableEq, Repr

/-- `pendingWriteFiles[file] = true` on a JS record: a key already present
keeps its position, a new key is appended. -/
def insertPending (l : List String) (file : String) : List String :=
  if file ∈ l then l else l ++ [file]

/-- JS `s.replace(pat, '')` with a string pattern: remove the first
occurrence of `pat`, or return `s` unchanged when absent (used as
`file.replace(absBuildDir, '')`). -/
def replaceFirstList (pat : List Char) : List Char → List Char
  | [] => []
  | c :: rest =>
    if pat.isPrefixOf (c :: rest) then (c :: rest).drop pat.length
    else c :: replaceFirstList pat rest

/-- String form of `replaceFirstList`. -/
def replaceFirst (s pat : String) : String :=
  ⟨replaceFirstList pat.data s.data⟩

/-- A state-transforming hook together with the log lines it emitted. -/
structure TsStep where
  state : TsState
  logs : List LogEvent
deriving DecidableEq, Repr

/-- The wrapped `host.createProgram`: capture `outDir` as the new
`absBuildDir` when configured, log the round-start notice, set the status
to `Running` and delegate to the original builder. -/
def createProgramHook (outDir : Option String) (st : TsState) : TsStep :=
  let abs := match outDir with
    | some d => d ++ "/"
    | none => st.absBuildDir
  { state := { st with absBuildDir := abs, status := Status.Running }
    logs := [LogEvent.infoMsg "Run typescript check ..."] }

/-- `reportDiagnostic`: print the diagnostic; a category-1 (error severity)
diagnostic sets the round status to `HasError`. -/
def reportDiagnostic (category : Nat) (st : TsState) : TsStep :=
  { state := if category = 1 then { st with status := Status.HasError } else st
    logs := [LogEvent.diagPrinted category] }

/-- The intercepted `host.writeFile`: log the hook, log an error when the
write arrives outside a running round (`status === Status.Done`), and
record the path in `pendingWriteFiles` in every case. -/
def writeFileHook (file : String) (st : TsState) : TsStep :=
  { state := { st with pendingWriteFiles := insertPending st.pendingWriteFiles file }
    logs := [LogEvent.debugMsg "Typescript Hook write"]
      ++ (if st.status = Status.Done then [LogEvent.unexpectedWrite file] else []) }

/-- Result of `flushWrites`: the successor state, the log lines, and the
relative paths handed to `outputFileForKarma`, in iteration order. -/
structure FlushResult where
  state : TsState
  logs : List LogEvent
  requested : List String
deriving DecidableEq, Repr

/-- `flushWrites(ok)`: skip (leaving `pendingWriteFiles` untouched) when
`!ok` or no karma output directory is configured; otherwise take the keys
of `pendingWriteFiles`, clear the record, and request each key with the
`absBuildDir` prefix stripped. -/
def flushWrites (karmaOutput : Option String) (ok : Bool) (st : TsState) : FlushResult :=
  if !ok || karmaOutput.isNone then
    { state := st, logs := [LogEvent.debugMsg "Skip output for karma"], requested := [] }
  else
    let todo := st.pendingWriteFiles
    let st' := { st with pendingWriteFiles := [] }
    if todo.length = 0 then
      { state := st', logs := [LogEvent.infoMsg "No files changed"], requested := [] }
    else
      { state := st'
        logs := [LogEvent.infoMsg "Write files to Karma-Output"]
        requested := todo.map (fun f => replaceFirst f st.absBuildDir) }

/-- Result of `reportWatchStatusChanged`: `ok = none` when the diagnostic
was a round-start notice (codes 6031/6032); otherwise `ok = some b` where
`b` is the value passed to both `finished` and `flushWrites`, and
`requested` are the paths the flush handed to the publisher. -/
structure RoundCompletion where
  state : TsState
  logs : List LogEvent
  ok : Option Bool
  requested : List String
deriving DecidableEq, Repr

/-- `reportWatchStatusChanged`: print the status diagnostic; return early
on the round-start codes 6031/6032; otherwise report
`ok = (status !== Status.HasError)` to `finished` and run
`flushWrites(ok)`. The status field is not reset here. -/
def reportWatchStatusChanged (karmaOutput : Option String) (code : Nat)
    (st : TsState) : RoundCompletion :=
  if code = 6032 ∨ code = 6031 then
    { state := st, logs := [LogEvent.diagPrinted code], ok := none, requested := [] }
  else
    let ok : Bool := st.status ≠ Status.HasError
    let fr := flushWrites karmaOutput ok st
    { state := fr.state
      logs := LogEvent.diagPrinted code :: LogEvent.debugMsg "Done typescript check" :: fr.logs
      ok := some ok
      requested := fr.requested }

/-- An event delivered to the plugin while a round is underway: an ordinary
diagnostic (`reportDiagnostic`) or an intercepted emit (`host.writeFile`). -/
inductive RoundEvent where
  | diag (category : Nat)
  | write (file : String)
deriving DecidableEq, Repr

/-- Whether the event is an error-severity diagnostic. -/
def RoundEvent.isErrDiag : RoundEvent → Bool
  | .diag c => c = 1
  | .write _ => false

/-- Apply one round event to the state. -/
def processEvent (st : TsState) : RoundEvent → TsState
  | .diag c => (reportDiagnostic c st).state
  | .write f => (writeFileHook f st).state

/-- Apply a sequence of round events in order. -/
def processEvents (st : TsState) (evs : List RoundEvent) : TsState :=
  evs.foldl processEvent st

/-- The round state just before the completion diagnostic: the
`createProgram` hook fired and the round's diagnostics and intercepted
writes were delivered. -/
def roundPre (outDir : Option String) (evs : List RoundEvent) (st0 : TsState) : TsState :=
  processEvents (createProgramHook outDir st0).state evs

/-- One full check round: the `createProgram` hook fires, the diagnostics
and intercepted writes of the round are delivered, and the round-completion
diagnostic (`code`) arrives at `reportWatchStatusChanged`. -/
def runRound (karmaOutput : Option String) (outDir : Option String)
    (evs : List RoundEvent) (code : Nat) (st0 : TsState) : RoundCompletion :=
  reportWatchStatusChanged karmaOutput code (roundPre outDir evs st0)

/-- The closure state before the first round: `status = Status.Done`,
no pending writes, `absBuildDir` guessed as the root directory. -/
def initTsState (rootDir : String) : TsState :=
  { status := Status.Done, pendingWriteFiles := [], absBuildDir := rootDir ++ "/" }

/-! ## Lint gate (`initEslint`) -/

/-- The `eslintRun` option (`'never' | 'force' | 'normal'`, default
`'normal'`). -/
inductive LintMode where
  | never
  | force
  | normal
deriving DecidableEq, Repr

/-- What one call of the executor returned by `initEslint` does:
whether `postMessage('run')` was sent to the worker, and whether the call
returned an already-resolved promise instead of one the worker settles. -/
structure LintCall where
  workerInvoked : Bool
  immediate : Bool
deriving DecidableEq, Repr

/-- The executor returned by `initEslint` for one invocation with outcome
`ok`: mode `never` returns `Promise.resolve()` from a stub (the worker is
never even created); otherwise `!ok && mode === 'normal'` returns
`Promise.resolve()`; every other call posts `'run'` and returns a promise
resolved on the worker's `'done'` message. -/
def initEslintExecutor (mode : LintMode) (ok : Bool) : LintCall :=
  if mode = LintMode.never then
    { workerInvoked := false, immediate := true }
  else if !ok && mode = LintMode.normal then
    { workerInvoked := false, immediate := true }
  else
    { workerInvoked := true, immediate := false }

/-! ## Lint worker (eslint.ts message handler) -/

/-- Outcome of `eslint.lintFiles(...)`: the promise resolves with results,
or rejects with an exception. -/
inductive LintOutcome where
  | success (results : String)
  | failure (err : String)
deriving DecidableEq, Repr

/-- Observable effects of one `on('message')` dispatch in the worker. -/
structure WorkerEffects where
  logs : List LogEvent
  printed : List String
  messagesSent : List String
deriving DecidableEq, Repr

/-- The worker's `parentPort.on('message')` handler: on `'run'`, run
`lintFiles`; when it resolves, print the formatted report (or the
stub-formatter error when `loadFormatter` failed) and post `'done'`;
when it rejects, the `.catch` logs `'Eslint Failed'` and nothing more —
in particular no `'done'` message is posted on that path. Any other
message type logs `'Unknown message type'`. -/
def workerOnMessage (formatterLoaded : Bool) (msgType : String)
    (outcome : LintOutcome) : WorkerEffects :=
  if msgType = "run" then
    match outcome with
    | .success results =>
      if formatterLoaded then
        { logs := [], printed := [results], messagesSent := ["done"] }
      else
        { logs := [LogEvent.missingFormatter], printed := [], messagesSent := ["done"] }
    | .failure err =>
      { logs := [LogEvent.eslintFailed err], printed := [], messagesSent := [] }
  else
    { logs := [LogEvent.unknownMessage], printed := [], messagesSent := [] }

/-! ## Artifact publisher (`outputFileForKarma`) -/

/-- The publisher configuration captured by the plugin closure:
`karmaOutput` (the staging root, `false`/`none` disables the integration)
and the optional `karmaFilter` transform. -/
structure PublishCfg where
  karmaOutput : Option String
  karmaFilter : Option (String → String → String)

/-- Outcome of the HTTP GET against the snowpack dev server: a response
with a status code and body, or a network-level `'error'` event. -/
inductive FetchOutcome where
  | response (statusCode : Nat) (body : String)
  | netFailure (err : String)
deriving DecidableEq, Repr

/-- `path.join(karmaOutput, file)` for the straight-line case the plugin
exercises (no `..` normalisation is involved). -/
def pathJoin (a b : String) : String := a ++ "/" ++ b

/-- Observable effects of one `outputFileForKarma(file)` call: the log
lines, the file written to the staging directory (with its content) when
the write succeeded, and whether `startKarmaServer && startKarmaServer()`
was reached. -/
structure PublishOutcome where
  logs : List LogEvent
  written : Option (String × String)
  armReached : Bool

/-- `outputFileForKarma(file)` with the fetch outcome and whether the
`fs.mkdir`/`fs.writeFile` pair succeeds: no-op without a staging root;
a network failure logs and aborts; a non-200 status logs the path and
status and aborts; on a 200 response the optional `karmaFilter` is
applied, the write is attempted (a write failure is caught and logged),
and the deferred karma start is triggered after the try/catch on both the
success and the failure path of the write. -/
def outputFileForKarma (cfg : PublishCfg) (file : String)
    (fetch : FetchOutcome) (writeOk : Bool) : PublishOutcome :=
  match cfg.karmaOutput with
  | none => { logs := [], written := none, armReached := false }
  | some outDir =>
    match fetch with
    | .netFailure e =>
      { logs := [LogEvent.requestFailed file e], written := none, armReached := false }
    | .response statusCode body =>
      if statusCode ≠ 200 then
        { logs := [LogEvent.fetchStatus file statusCode], written := none
          armReached := false }
      else
        let karmaFile := pathJoin outDir file
        let content := match cfg.karmaFilter with
          | some f => f file body
          | none => body
        if writeOk then
          { logs := [LogEvent.debugMsg "Write for karma"]
            written := some (karmaFile, content), armReached := true }
        else
          { logs := [LogEvent.debugMsg "Write for karma",
                     LogEvent.writeFailed karmaFile "EACCES"]
            written := none, armReached := true }

/-- A batch of independent publishes, as issued by one `flushWrites`
iteration: each job is `(file, fetch outcome, write success)`. -/
def processPublishes (cfg : PublishCfg)
    (jobs : List (String × FetchOutcome × Bool)) : List PublishOutcome :=
  jobs.map (fun j => outputFileForKarma cfg j.1 j.2.1 j.2.2)

/-! ## Deferred karma start (`startKarmaServer` slot) -/

/-- The karma start bookkeeping: whether the `startKarmaServer` slot still
holds a function (it is set to `null` synchronously inside the first
call), how many settle timers have been installed and not yet fired, and
how many times `karma.start()` has run. -/
structure KarmaState where
  slotArmed : Bool
  timersInstalled : Nat
  starts : Nat
deriving DecidableEq, Repr

/-- `startKarmaServer && startKarmaServer()`: when the slot is non-null,
install the one-shot settle timer and null the slot; otherwise do
nothing. -/
def armStart (st : KarmaState) : KarmaState :=
  if st.slotArmed then
    { st with timersInstalled := st.timersInstalled + 1, slotArmed := false }
  else st

/-- Every installed settle timer fires once, each firing calling
`karma.start()`. -/
def fireTimers (st : KarmaState) : KarmaState :=
  { st with starts := st.starts + st.timersInstalled, timersInstalled := 0 }

/-- `armStart` applied `k` times. -/
def armK (k : Nat) (st : KarmaState) : KarmaState :=
  match k with
  | 0 => st
  | k + 1 => armK k (armStart st)

/-- The state `initKarma` leaves behind when karma is enabled: the slot is
populated, no timer installed, no start yet. -/
def karmaInit : KarmaState :=
  { slotArmed := true, timersInstalled := 0, starts := 0 }

/-! ## Change router (`addWatched` / `onChanged`) -/

/-- A registered typescript watch callback, abstracted to an identifier
and whether invoking it throws. -/
structure Callback where
  cbId : Nat
  throws : Bool
deriving DecidableEq, Repr

/-- The `watched` record: path → ordered callback list, keys in insertion
order. -/
abbrev Watched := List (String × List Callback)

/-- Lookup of `watched[file]`: the callback list of the first entry with
the key, when present. -/
def lookupWatched : Watched → String → Option (List Callback)
  | [], _ => none
  | e :: rest, file => if e.1 = file then some e.2 else lookupWatched rest file

/-- `addWatched(file, callback)`: create the entry (at the end, matching
JS key insertion order) on first registration, append the callback to the
existing entry's list on later ones. The returned watcher's `close` is a
no-op stub and is not modelled. -/
def addWatched : Watched → String → Callback → Watched
  | [], file, cb => [(file, [cb])]
  | e :: rest, file, cb =>
    if e.1 = file then (e.1, e.2 ++ [cb]) :: rest
    else e :: addWatched rest file cb

/-- Effects of one `onChanged(file)` call: the callback ids invoked in
order, and the error log lines emitted for callbacks that threw. -/
structure NotifyResult where
  invoked : List Nat
  logs : List LogEvent
deriving DecidableEq, Repr

/-- The `for(const cb of watched[file])` loop body: each callback is
invoked inside `try`; a throwing callback is logged and the loop
continues with the next callback. -/
def runCallbacks (file : String) : List Callback → NotifyResult
  | [] => { invoked := [], logs := [] }
  | cb :: rest =>
    let r := runCallbacks file rest
    { invoked := cb.cbId :: r.invoked
      logs := (if cb.throws then [LogEvent.watcherFailed file cb.cbId] else []) ++ r.logs }

/-- `onChanged(file)`: run the registered callbacks for the exact path, or
do nothing when the path has no entry. The `watched` map itself is not
modified. -/
def onChanged (w : Watched) (file : String) : NotifyResult :=
  match lookupWatched w file with
  | none => { invoked := [], logs := [] }
  | some cbs => runCallbacks file cbs

/-- A concrete check-pipeline state after an errored, unflushed round:
the intent `a.js` is still pending. Used by the C3/C4 scenarios. -/
def errSt : TsState :=
  { status := Status.HasError, pendingWriteFiles := ["a.js"], absBuildDir := "proj/" }

/-! ## Helper lemmas about round-event processing -/

theorem processEvents_nil (st : TsState) : processEvents st [] = st := rfl

theorem processEvents_cons (st : TsState) (e : RoundEvent) (evs : List RoundEvent) :
    processEvents st (e :: evs) = processEvents (processEvent st e) evs := rfl

theorem processEvent_pending_superset (st : TsState) (e : RoundEvent) (p : String)
    (h : p ∈ st.pendingWriteFiles) : p ∈ (processEvent st e).pendingWriteFiles := by
  cases e with
  | diag c =>
    simp only [processEvent, reportDiagnostic]
    split <;> simpa
  | write f =>
    simp only [processEvent, writeFileHook, insertPending]
    split
    · simpa
    · simp [h]

theorem processEvent_status_stable (st : TsState) (e : RoundEvent)
    (h : st.status = Status.HasError) : (processEvent st e).status = Status.HasError := by
  cases e with
  | diag c =>
    simp only [processEvent, reportDiagnostic]
    split <;> simp [h]
  | write f => simp [processEvent, writeFileHook, h]

theorem processEvent_status_keep (st : TsState) (e : RoundEvent)
    (h : e.isErrDiag = false) : (processEvent st e).status = st.status := by
  cases e with
  | diag c =>
    simp only [RoundEvent.isErrDiag, decide_eq_false_iff_not] at h
    simp [processEvent, reportDiagnostic, h]
  | write f => simp [processEvent, writeFileHook]

theorem processEvents_status_stable (evs : List RoundEvent) (st : TsState)
    (h : st.status = Status.HasError) :
    (processEvents st evs).status = Status.HasError := by
  induction evs generalizing st with
  | nil => simpa [processEvents]
  | cons e evs ih =>
    rw [processEvents_cons]
    exact ih _ (processEvent_status_stable st e h)

theorem processEvents_status_keep (evs : List RoundEvent) (st : TsState)
    (h : evs.any RoundEvent.isErrDiag = false) :
    (processEvents st evs).status = st.status := by
  induction evs generalizing st with
  | nil => rfl
  | cons e evs ih =>
    simp only [List.any_cons, Bool.or_eq_false_iff] at h
    rw [processEvents_cons, ih _ h.2, processEvent_status_keep st e h.1]

theorem processEvents_status_err (evs : List RoundEvent) (st : TsState)
    (h : evs.any RoundEvent.isErrDiag = true) :
    (processEvents st evs).status = Status.HasError := by
  induction evs generalizing st with
  | nil => simp [List.any_nil] at h
  | cons e evs ih =>
    rw [processEvents_cons]
    simp only [List.any_cons, Bool.or_eq_true] at h
    rcases h with h | h
    · cases e with
      | diag c =>
        simp only [RoundEvent.isErrDiag, decide_eq_true_eq] at h
        apply processEvents_status_stable
        simp [processEvent, reportDiagnostic, h]
      | write f => simp [RoundEvent.isErrDiag] at h
    · exact ih _ h

theorem processEvents_pending_superset (evs : List RoundEvent) (st : TsState) (p : String)
    (h : p ∈ st.pendingWriteFiles) : p ∈ (processEvents st evs).pendingWriteFiles := by
  induction evs generalizing st with
  | nil => simpa [processEvents]
  | cons e evs ih =>
    rw [processEvents_cons]
    exact ih _ (processEvent_pending_superset st e p h)

theorem processEvents_pending_mem (evs : List RoundEvent) (st : TsState) (p : String)
    (h : RoundEvent.write p ∈ evs) : p ∈ (processEvents st evs).pendingWriteFiles := by
  induction evs generalizing st with
  | nil => simp at h
  | cons e evs ih =>
    rw [processEvents_cons]
    rcases List.mem_cons.mp h with h | h
    · subst h
      apply processEvents_pending_superset
      simp only [processEvent, writeFileHook, insertPending]
      split
      · assumption
      · simp
    · exact ih _ h

theorem insertPending_nodup (l : List String) (f : String) (h : l.Nodup) :
    (insertPending l f).Nodup := by
  unfold insertPending
  split
  · exact h
  · refine List.Nodup.append h (List.nodup_singleton f) ?_
    intro a ha hb
    simp only [List.mem_singleton] at hb
    subst hb
    simp_all

theorem processEvent_pending_nodup (st : TsState) (e : RoundEvent)
    (h : st.pendingWriteFiles.Nodup) : (processEvent st e).pendingWriteFiles.Nodup := by
  cases e with
  | diag c =>
    simp only [processEvent, reportDiagnostic]
    split <;> simpa
  | write f =>
    simp only [processEvent, writeFileHook]
    exact insertPending_nodup _ _ h

theorem processEvents_pending_nodup (evs : List RoundEvent) (st : TsState)
    (h : st.pendingWriteFiles.Nodup) :
    (processEvents st evs).pendingWriteFiles.Nodup := by
  induction evs generalizing st with
  | nil => simpa [processEvents]
  | cons e evs ih =>
    rw [processEvents_cons]
    exact ih _ (processEvent_pending_nodup st e h)

theorem mem_insertPending_self (l : List String) (f : String) :
    f ∈ insertPending l f := by
  unfold insertPending
  split
  · assumption
  · simp

/-- `flushWrites` with `ok = false` skips: the state (and in particular
`pendingWriteFiles`) is untouched and nothing is requested. -/
theorem flushWrites_skip (karmaOutput : Option String) (st : TsState) :
    flushWrites karmaOutput false st =
      { state := st, logs := [LogEvent.debugMsg "Skip output for karma"], requested := [] } := rfl

/-- `flushWrites` with `ok = true`, a configured output directory and a
non-empty pending set: the pending set is cleared and every key is
requested with the build-directory prefix stripped. -/
theorem flushWrites_run (ko : String) (st : TsState)
    (hne : st.pendingWriteFiles ≠ []) :
    flushWrites (some ko) true st =
      { state := { st with pendingWriteFiles := [] }
        logs := [LogEvent.infoMsg "Write files to Karma-Output"]
        requested := st.pendingWriteFiles.map (fun f => replaceFirst f st.absBuildDir) } := by
  unfold flushWrites
  rw [if_neg (by simp)]
  rw [if_neg (by simpa using hne)]

theorem reportWatch_notStart (karmaOutput : Option String) (code : Nat) (st : TsState)
    (h31 : code ≠ 6031) (h32 : code ≠ 6032) :
    reportWatchStatusChanged karmaOutput code st =
      { state := (flushWrites karmaOutput (decide (st.status ≠ Status.HasError)) st).state
        logs := LogEvent.diagPrinted code :: LogEvent.debugMsg "Done typescript check"
          :: (flushWrites karmaOutput (decide (st.status ≠ Status.HasError)) st).logs
        ok := some (decide (st.status ≠ Status.HasError))
        requested := (flushWrites karmaOutput (decide (st.status ≠ Status.HasError)) st).requested } := by
  unfold reportWatchStatusChanged
  rw [if_neg (by simp [h31, h32])]

/-! ## Claim theorems -/

/-- C1: for every sequence of diagnostics delivered within one check round
that contains at least one error-severity diagnostic, the round-completion
flush publishes zero files (no request is issued for any buffered
write-intent) and the lint gate in `normal` mode does not invoke the lint
worker for the round's outcome. -/
theorem c1_err_round_no_publish_no_lint
    (karmaOutput outDir : Option String) (evs : List RoundEvent) (code : Nat)
    (st0 : TsState)
    (herr : evs.any RoundEvent.isErrDiag = true)
    (h31 : code ≠ 6031) (h32 : code ≠ 6032) :
    (runRound karmaOutput outDir evs code st0).requested = [] ∧
    (runRound karmaOutput outDir evs code st0).ok = some false ∧
    ∀ b, (runRound karmaOutput outDir evs code st0).ok = some b →
      (initEslintExecutor LintMode.normal b).workerInvoked = false := by
  have hst : (roundPre outDir evs st0).status = Status.HasError :=
    processEvents_status_err evs _ herr
  unfold runRound
  rw [reportWatch_notStart karmaOutput code _ h31 h32]
  simp only [hst, ne_eq, not_true_eq_false, decide_False, flushWrites_skip]
  refine ⟨trivial, trivial, ?_⟩
  intro b hb
  cases hb
  rfl

/-- C1 witness at a concrete round: one error diagnostic, completion
code 6194. -/
theorem c1_err_round_no_publish_no_lint_witness :
    ([RoundEvent.diag 1].any RoundEvent.isErrDiag = true) ∧
    ((runRound (some "bt") none [RoundEvent.diag 1] 6194 (initTsState "proj")).requested = [] ∧
     (runRound (some "bt") none [RoundEvent.diag 1] 6194 (initTsState "proj")).ok = some false ∧
     ∀ b, (runRound (some "bt") none [RoundEvent.diag 1] 6194 (initTsState "proj")).ok = some b →
       (initEslintExecutor LintMode.normal b).workerInvoked = false) :=
  ⟨by decide,
   c1_err_round_no_publish_no_lint (some "bt") none [RoundEvent.diag 1] 6194
     (initTsState "proj") (by decide) (by decide) (by decide)⟩

/-- C5: the lint gate obeys its policy for every invocation: with `never`
the worker is never invoked and the call is immediately completed; with
`force` the worker is invoked regardless of `ok`; with `normal` (the
default) the worker is invoked iff `ok = true`, and the call is
immediately completed exactly when `ok = false`. -/
theorem c5_lint_gate_policy (ok : Bool) :
    (initEslintExecutor LintMode.never ok).workerInvoked = false ∧
    (initEslintExecutor LintMode.never ok).immediate = true ∧
    (initEslintExecutor LintMode.force ok).workerInvoked = true ∧
    (initEslintExecutor LintMode.force ok).immediate = false ∧
    (initEslintExecutor LintMode.normal ok).workerInvoked = ok ∧
    (initEslintExecutor LintMode.normal ok).immediate = !ok := by
  cases ok <;> decide

/-- C2: for every round with zero error diagnostics, every distinct
write-intent path recorded during the round appears exactly once in the
flushed key list at completion, no matter how often it was reported as a
write-intent; the flush issues one request per key (prefix-stripped) and
clears the pending set. -/
theorem c2_clean_round_publishes_once
    (ko : String) (outDir : Option String) (evs : List RoundEvent) (code : Nat)
    (st0 : TsState) (p : String)
    (hnoerr : evs.any RoundEvent.isErrDiag = false)
    (hnodup : st0.pendingWriteFiles.Nodup)
    (hmem : RoundEvent.write p ∈ evs)
    (h31 : code ≠ 6031) (h32 : code ≠ 6032) :
    (runRound (some ko) outDir evs code st0).ok = some true ∧
    (roundPre outDir evs st0).pendingWriteFiles.count p = 1 ∧
    (runRound (some ko) outDir evs code st0).requested
      = (roundPre outDir evs st0).pendingWriteFiles.map
          (fun f => replaceFirst f (roundPre outDir evs st0).absBuildDir) ∧
    (runRound (some ko) outDir evs code st0).state.pendingWriteFiles = [] := by
  have hst : (roundPre outDir evs st0).status = Status.Running := by
    unfold roundPre
    rw [processEvents_status_keep evs _ hnoerr]
    rfl
  have hpmem : p ∈ (roundPre outDir evs st0).pendingWriteFiles :=
    processEvents_pending_mem evs _ p hmem
  have hnd : (roundPre outDir evs st0).pendingWriteFiles.Nodup := by
    unfold roundPre
    exact processEvents_pending_nodup evs _ (by simpa [createProgramHook] using hnodup)
  have hne : (roundPre outDir evs st0).pendingWriteFiles ≠ [] := by
    intro h
    rw [h] at hpmem
    simp at hpmem
  unfold runRound
  rw [reportWatch_notStart (some ko) code _ h31 h32]
  simp only [hst]
  rw [show decide (Status.Running ≠ Status.HasError) = true from rfl]
  rw [flushWrites_run ko _ hne]
  exact ⟨rfl, List.count_eq_one_of_mem hnd hpmem, rfl, rfl⟩

/-- C2 witness at a concrete round: the same path written twice plus a
warning diagnostic, flushed once. -/
theorem c2_clean_round_publishes_once_witness :
    ([RoundEvent.write "proj/out/a.js", RoundEvent.write "proj/out/a.js",
        RoundEvent.diag 0].any RoundEvent.isErrDiag = false) ∧
    (RoundEvent.write "proj/out/a.js"
      ∈ [RoundEvent.write "proj/out/a.js", RoundEvent.write "proj/out/a.js",
          RoundEvent.diag 0]) ∧
    ((runRound (some "bt") (some "proj/out")
        [RoundEvent.write "proj/out/a.js", RoundEvent.write "proj/out/a.js",
          RoundEvent.diag 0] 6194 (initTsState "proj")).ok = some true ∧
     (roundPre (some "proj/out")
        [RoundEvent.write "proj/out/a.js", RoundEvent.write "proj/out/a.js",
          RoundEvent.diag 0] (initTsState "proj")).pendingWriteFiles.count "proj/out/a.js" = 1 ∧
     (runRound (some "bt") (some "proj/out")
        [RoundEvent.write "proj/out/a.js", RoundEvent.write "proj/out/a.js",
          RoundEvent.diag 0] 6194 (initTsState "proj")).requested
       = (roundPre (some "proj/out")
            [RoundEvent.write "proj/out/a.js", RoundEvent.write "proj/out/a.js",
              RoundEvent.diag 0] (initTsState "proj")).pendingWriteFiles.map
           (fun f => replaceFirst f (roundPre (some "proj/out")
              [RoundEvent.write "proj/out/a.js", RoundEvent.write "proj/out/a.js",
                RoundEvent.diag 0] (initTsState "proj")).absBuildDir) ∧
     (runRound (some "bt") (some "proj/out")
        [RoundEvent.write "proj/out/a.js", RoundEvent.write "proj/out/a.js",
          RoundEvent.diag 0] 6194 (initTsState "proj")).state.pendingWriteFiles = []) :=
  ⟨by decide, by decide,
   c2_clean_round_publishes_once "bt" (some "proj/out")
     [RoundEvent.write "proj/out/a.js", RoundEvent.write "proj/out/a.js",
       RoundEvent.diag 0] 6194 (initTsState "proj") "proj/out/a.js"
     (by decide) (by decide) (by decide) (by decide) (by decide)⟩

/-- C3 counterexample: round N records the intent `a.js` and ends with an
error, so it is never flushed; at the start of round N+1 the pending
intent set still holds `a.js` (it is not reset), and round N+1's flush
publishes it — refuting both parts of the claim at a concrete input. -/
theorem c3_round_reset_cex :
    (runRound (some "bt") none [RoundEvent.write "a.js", RoundEvent.diag 1] 6194
        (initTsState "proj")).ok = some false ∧
    (runRound (some "bt") none [RoundEvent.write "a.js", RoundEvent.diag 1] 6194
        (initTsState "proj")).requested = [] ∧
    (createProgramHook none
        (runRound (some "bt") none [RoundEvent.write "a.js", RoundEvent.diag 1] 6194
          (initTsState "proj")).state).state.pendingWriteFiles = ["a.js"] ∧
    (runRound (some "bt") none [] 6194
        (runRound (some "bt") none [RoundEvent.write "a.js", RoundEvent.diag 1] 6194
          (initTsState "proj")).state).requested = ["a.js"] := by
  decide

/-- C3 amended: starting round N+1 resets the round error flag (the status
becomes `Running`) but not the write-intent set: the pending intents of an
errored, unflushed round N are carried over unchanged, and an intent
recorded in round N is published by the next round that completes without
errors. -/
theorem c3_flag_reset_intents_kept
    (ko : String) (od od2 : Option String) (evs evs2 : List RoundEvent)
    (code code2 : Nat) (st0 st1 : TsState) (p : String)
    (hmem : RoundEvent.write p ∈ evs)
    (herr : evs.any RoundEvent.isErrDiag = true)
    (hnoerr2 : evs2.any RoundEvent.isErrDiag = false)
    (h31 : code ≠ 6031) (h32 : code ≠ 6032)
    (h31b : code2 ≠ 6031) (h32b : code2 ≠ 6032)
    (hst1 : st1 = (runRound (some ko) od evs code st0).state) :
    (createProgramHook od2 st1).state.status = Status.Running ∧
    (createProgramHook od2 st1).state.pendingWriteFiles = st1.pendingWriteFiles ∧
    p ∈ st1.pendingWriteFiles ∧
    replaceFirst p (roundPre od2 evs2 st1).absBuildDir
      ∈ (runRound (some ko) od2 evs2 code2 st1).requested := by
  have hstErr : (roundPre od evs st0).status = Status.HasError :=
    processEvents_status_err evs _ herr
  have hst1' : st1 = roundPre od evs st0 := by
    rw [hst1]
    unfold runRound
    rw [reportWatch_notStart (some ko) code _ h31 h32]
    simp only [hstErr, ne_eq, not_true_eq_false, decide_False, flushWrites_skip]
  have hp1 : p ∈ st1.pendingWriteFiles := by
    rw [hst1']
    exact processEvents_pending_mem evs _ p hmem
  have hp2 : p ∈ (roundPre od2 evs2 st1).pendingWriteFiles := by
    unfold roundPre
    apply processEvents_pending_superset
    simpa [createProgramHook] using hp1
  have hst2 : (roundPre od2 evs2 st1).status = Status.Running := by
    unfold roundPre
    rw [processEvents_status_keep evs2 _ hnoerr2]
    rfl
  have hne : (roundPre od2 evs2 st1).pendingWriteFiles ≠ [] := by
    intro h
    rw [h] at hp2
    simp at hp2
  refine ⟨by simp [createProgramHook], by simp [createProgramHook], hp1, ?_⟩
  unfold runRound
  rw [reportWatch_notStart (some ko) code2 _ h31b h32b]
  simp only [hst2]
  rw [show decide (Status.Running ≠ Status.HasError) = true from rfl]
  rw [flushWrites_run ko _ hne]
  exact List.mem_map_of_mem _ hp2

/-- C3 amended, witness: the two-round scenario of the counterexample,
instantiated concretely. -/
theorem c3_flag_reset_intents_kept_witness :
    (RoundEvent.write "a.js" ∈ [RoundEvent.write "a.js", RoundEvent.diag 1]) ∧
    ([RoundEvent.write "a.js", RoundEvent.diag 1].any RoundEvent.isErrDiag = true) ∧
    (([] : List RoundEvent).any RoundEvent.isErrDiag = false) ∧
    (errSt = (runRound (some "bt") none [RoundEvent.write "a.js", RoundEvent.diag 1] 6194
          (initTsState "proj")).state) ∧
    ((createProgramHook none errSt).state.status = Status.Running ∧
     (createProgramHook none errSt).state.pendingWriteFiles = errSt.pendingWriteFiles ∧
     "a.js" ∈ errSt.pendingWriteFiles ∧
     replaceFirst "a.js" (roundPre none [] errSt).absBuildDir
       ∈ (runRound (some "bt") none [] 6194 errSt).requested) :=
  ⟨by decide, by decide, by decide, by decide,
   c3_flag_reset_intents_kept "bt" none none
     [RoundEvent.write "a.js", RoundEvent.diag 1] [] 6194 6194
     (initTsState "proj") errSt
     "a.js" (by decide) (by decide) (by decide) (by decide) (by decide)
     (by decide) (by decide) (by decide)⟩

/-- C4 counterexample: when a round completes with `ok = false`, the
buffered intents are not discarded — the pending set still holds `a.js`
afterwards, refuting "the pending intent set is empty afterwards" at a
concrete input. -/
theorem c4_discard_cex :
    (reportWatchStatusChanged (some "bt") 6194 errSt).ok = some false ∧
    (reportWatchStatusChanged (some "bt") 6194 errSt).state.pendingWriteFiles = ["a.js"] ∧
    (["a.js"] : List String) ≠ [] := by
  decide

/-- C4 amended: when a round completes with `ok = false`, nothing is
published at that completion and a debug-level skip notice is logged; the
buffered intents are retained unchanged (not discarded), available to a
later successful flush. -/
theorem c4_err_flush_skips_and_retains
    (karmaOutput : Option String) (code : Nat) (st : TsState)
    (hst : st.status = Status.HasError)
    (h31 : code ≠ 6031) (h32 : code ≠ 6032) :
    (reportWatchStatusChanged karmaOutput code st).ok = some false ∧
    (reportWatchStatusChanged karmaOutput code st).requested = [] ∧
    LogEvent.debugMsg "Skip output for karma"
      ∈ (reportWatchStatusChanged karmaOutput code st).logs ∧
    (reportWatchStatusChanged karmaOutput code st).state = st := by
  rw [reportWatch_notStart karmaOutput code st h31 h32]
  simp [hst, flushWrites_skip]

/-- C4 amended, witness at a concrete errored round state. -/
theorem c4_err_flush_skips_and_retains_witness :
    (errSt.status = Status.HasError) ∧
    ((reportWatchStatusChanged (some "bt") 6194 errSt).ok = some false ∧
     (reportWatchStatusChanged (some "bt") 6194 errSt).requested = [] ∧
     LogEvent.debugMsg "Skip output for karma"
       ∈ (reportWatchStatusChanged (some "bt") 6194 errSt).logs ∧
     (reportWatchStatusChanged (some "bt") 6194 errSt).state = errSt) :=
  ⟨by decide,
   c4_err_flush_skips_and_retains (some "bt") 6194 errSt
     (by decide) (by decide) (by decide)⟩

/-- C6, evaluated at the failing input: when `eslint.lintFiles` rejects,
the worker catches and logs the exception (it is not propagated — the
handler is total) but posts no `'done'` message on that exit path, so the
awaitable returned by the gate is never settled; on the success path
`'done'` is posted. This contradicts the claim that completion is still
signaled on the failure path. -/
theorem c6_worker_failure_skips_done :
    (workerOnMessage true "run" (LintOutcome.failure "boom")).messagesSent = [] ∧
    (workerOnMessage true "run" (LintOutcome.failure "boom")).logs
      = [LogEvent.eslintFailed "boom"] ∧
    (workerOnMessage true "run" (LintOutcome.success "report")).messagesSent = ["done"] := by
  decide

/-- `armStart` is a no-op once the slot has been consumed. -/
theorem armK_noop (m : Nat) (st : KarmaState) (h : st.slotArmed = false) :
    armK m st = st := by
  induction m with
  | zero => rfl
  | succ m ih =>
    show armK m (armStart st) = st
    rw [show armStart st = st from by unfold armStart; rw [h]; rfl]
    exact ih

/-- Any positive number of `armStart` calls from the populated slot leaves
exactly one installed timer and a consumed slot. -/
theorem armK_once (k : Nat) (hk : 1 ≤ k) :
    armK k karmaInit
      = { slotArmed := false, timersInstalled := 1, starts := 0 } := by
  cases k with
  | zero => omega
  | succ k =>
    show armK k (armStart karmaInit) = _
    rw [show armStart karmaInit
        = { slotArmed := false, timersInstalled := 1, starts := 0 } from rfl]
    exact armK_noop k _ rfl

/-- C7 counterexample: a publish whose fetch succeeded but whose
`fs.writeFile` failed still reaches `startKarmaServer && startKarmaServer()`
— the deferred start is triggered although no artifact write succeeded,
refuting "triggered only after a successful artifact write". -/
theorem c7_trigger_after_failed_write_cex :
    (outputFileForKarma { karmaOutput := some "bt", karmaFilter := none } "a.js"
        (FetchOutcome.response 200 "body") false).armReached = true ∧
    (outputFileForKarma { karmaOutput := some "bt", karmaFilter := none } "a.js"
        (FetchOutcome.response 200 "body") false).written = none :=
  ⟨rfl, rfl⟩

/-- C7 amended: the deferred test-server start is triggered at the end of
every publish whose fetch returned 200 — whether or not the write itself
succeeded — and not by non-200 or network-failed publishes; and it is
one-shot per process: the first trigger installs the one-shot settle-delay
start and K trigger calls, before or after the settle timer fires, yield
exactly one server start. -/
theorem c7_karma_start_once
    (out file body e : String) (kf : Option (String → String → String))
    (writeOk : Bool) (k m : Nat) (hk : 1 ≤ k) :
    (outputFileForKarma { karmaOutput := some out, karmaFilter := kf } file
        (FetchOutcome.response 200 body) writeOk).armReached = true ∧
    (outputFileForKarma { karmaOutput := some out, karmaFilter := kf } file
        (FetchOutcome.response 404 body) writeOk).armReached = false ∧
    (outputFileForKarma { karmaOutput := some out, karmaFilter := kf } file
        (FetchOutcome.netFailure e) writeOk).armReached = false ∧
    (fireTimers (armK k karmaInit)).starts = 1 ∧
    (fireTimers (armK m (fireTimers (armK k karmaInit)))).starts = 1 := by
  have h1 : (outputFileForKarma { karmaOutput := some out, karmaFilter := kf } file
      (FetchOutcome.response 200 body) writeOk).armReached = true := by
    cases kf <;> cases writeOk <;> rfl
  have hfired : fireTimers (armK k karmaInit)
      = { slotArmed := false, timersInstalled := 0, starts := 1 } := by
    rw [armK_once k hk]
    rfl
  refine ⟨h1, ?_, ?_, ?_, ?_⟩
  · simp [outputFileForKarma]
  · rfl
  · rw [hfired]
  · rw [hfired, armK_noop m _ rfl]
    rfl

/-- C7 amended, witness at concrete inputs (three trigger calls, one
settle-timer firing, two more calls after). -/
theorem c7_karma_start_once_witness :
    (1 ≤ 3) ∧
    ((outputFileForKarma { karmaOutput := some "bt", karmaFilter := none } "a.js"
        (FetchOutcome.response 200 "body") true).armReached = true ∧
     (outputFileForKarma { karmaOutput := some "bt", karmaFilter := none } "a.js"
        (FetchOutcome.response 404 "body") true).armReached = false ∧
     (outputFileForKarma { karmaOutput := some "bt", karmaFilter := none } "a.js"
        (FetchOutcome.netFailure "ECONNREFUSED") true).armReached = false ∧
     (fireTimers (armK 3 karmaInit)).starts = 1 ∧
     (fireTimers (armK 2 (fireTimers (armK 3 karmaInit)))).starts = 1) :=
  ⟨by decide,
   c7_karma_start_once "bt" "a.js" "body" "ECONNREFUSED" none true 3 2 (by decide)⟩

/-- Registering a callback appends it to the path's existing ordered list
(the empty list on first registration). -/
theorem lookup_addWatched_self (w : Watched) (f : String) (cb : Callback) :
    lookupWatched (addWatched w f cb) f
      = some ((lookupWatched w f).getD [] ++ [cb]) := by
  induction w with
  | nil => simp [addWatched, lookupWatched]
  | cons e rest ih =>
    by_cases h : e.1 = f
    · simp [addWatched, lookupWatched, h]
    · simp [addWatched, lookupWatched, h, ih]

/-- Registration for one path does not alter any other path's entry. -/
theorem lookup_addWatched_other (w : Watched) (f g : String) (cb : Callback)
    (hne : g ≠ f) :
    lookupWatched (addWatched w f cb) g = lookupWatched w g := by
  have hfg : ¬ f = g := fun hh => hne hh.symm
  induction w with
  | nil => simp [addWatched, lookupWatched, hfg]
  | cons e rest ih =>
    by_cases h : e.1 = f
    · simp [addWatched, lookupWatched, h, hfg]
    · simp [addWatched, lookupWatched, h, ih]

/-- C8: registering the same path twice appends the second callback after
the first; one notify of that path invokes both callbacks exactly once
each, in registration order, even when the first throws — the throw is
caught and logged with the path and does not suppress the second; and a
notify of a path with no registrations invokes nothing and logs nothing. -/
theorem c8_router_order_and_isolation
    (w : Watched) (f : String) (cb1 cb2 : Callback)
    (hnew : lookupWatched w f = none) :
    lookupWatched (addWatched (addWatched w f cb1) f cb2) f = some [cb1, cb2] ∧
    (onChanged (addWatched (addWatched w f cb1) f cb2) f).invoked
      = [cb1.cbId, cb2.cbId] ∧
    (onChanged (addWatched (addWatched w f cb1) f cb2) f).logs
      = (if cb1.throws then [LogEvent.watcherFailed f cb1.cbId] else [])
        ++ (if cb2.throws then [LogEvent.watcherFailed f cb2.cbId] else []) ∧
    (∀ (w' : Watched) (g : String), lookupWatched w' g = none →
      onChanged w' g = { invoked := [], logs := [] }) := by
  have hlook : lookupWatched (addWatched (addWatched w f cb1) f cb2) f
      = some [cb1, cb2] := by
    rw [lookup_addWatched_self, lookup_addWatched_self, hnew]
    rfl
  refine ⟨hlook, ?_, ?_, ?_⟩
  · rw [onChanged, hlook]
    rfl
  · rw [onChanged, hlook]
    simp [runCallbacks]
  · intro w' g hg
    rw [onChanged, hg]

/-- C8 witness: two callbacks on `/a.ts`, the first throwing, registered
on the empty router. -/
theorem c8_router_order_and_isolation_witness :
    (lookupWatched [] "/a.ts" = none) ∧
    (lookupWatched (addWatched (addWatched [] "/a.ts" ⟨1, true⟩) "/a.ts" ⟨2, false⟩) "/a.ts"
       = some [⟨1, true⟩, ⟨2, false⟩] ∧
     (onChanged (addWatched (addWatched [] "/a.ts" ⟨1, true⟩) "/a.ts" ⟨2, false⟩) "/a.ts").invoked
       = [1, 2] ∧
     (onChanged (addWatched (addWatched [] "/a.ts" ⟨1, true⟩) "/a.ts" ⟨2, false⟩) "/a.ts").logs
       = (if (true : Bool) then [LogEvent.watcherFailed "/a.ts" 1] else [])
         ++ (if (false : Bool) then [LogEvent.watcherFailed "/a.ts" 2] else []) ∧
     (∀ (w' : Watched) (g : String), lookupWatched w' g = none →
       onChanged w' g = { invoked := [], logs := [] })) :=
  ⟨by decide,
   c8_router_order_and_isolation [] "/a.ts" ⟨1, true⟩ ⟨2, false⟩ (by decide)⟩

/-- C9: publish failures are isolated per file. A fetch that returns a
non-200 status logs exactly one error naming the path and the status,
writes nothing and triggers nothing; a network-level fetch failure
likewise only logs (the handler is total — nothing propagates); and a
batch of publishes is processed element-wise, so each file's outcome is
what it would be alone — in particular a second file still publishes when
the first one's fetch failed. -/
theorem c9_publish_failure_isolated
    (out file file2 body body2 e : String) (code : Nat) (writeOk : Bool)
    (kf : Option (String → String → String))
    (hcode : code ≠ 200) :
    (outputFileForKarma { karmaOutput := some out, karmaFilter := kf } file
        (FetchOutcome.response code body) writeOk).logs
      = [LogEvent.fetchStatus file code] ∧
    (outputFileForKarma { karmaOutput := some out, karmaFilter := kf } file
        (FetchOutcome.response code body) writeOk).written = none ∧
    (outputFileForKarma { karmaOutput := some out, karmaFilter := kf } file
        (FetchOutcome.netFailure e) writeOk).logs
      = [LogEvent.requestFailed file e] ∧
    (outputFileForKarma { karmaOutput := some out, karmaFilter := kf } file
        (FetchOutcome.netFailure e) writeOk).written = none ∧
    processPublishes { karmaOutput := some out, karmaFilter := kf }
        [(file, FetchOutcome.response code body, writeOk),
         (file2, FetchOutcome.response 200 body2, true)]
      = [outputFileForKarma { karmaOutput := some out, karmaFilter := kf } file
           (FetchOutcome.response code body) writeOk,
         outputFileForKarma { karmaOutput := some out, karmaFilter := kf } file2
           (FetchOutcome.response 200 body2) true] ∧
    (outputFileForKarma { karmaOutput := some out, karmaFilter := kf } file2
        (FetchOutcome.response 200 body2) true).written.isSome = true := by
  refine ⟨?_, ?_, rfl, rfl, rfl, ?_⟩
  · simp [outputFileForKarma, hcode]
  · simp [outputFileForKarma, hcode]
  · cases kf <;> rfl

/-- C9 witness: the spec scenario — `out/a.js` gets a 404 and only its
publish is abandoned, `out/b.js` still publishes. -/
theorem c9_publish_failure_isolated_witness :
    ((404 : Nat) ≠ 200) ∧
    ((outputFileForKarma { karmaOutput := some "build_test", karmaFilter := none } "out/a.js"
        (FetchOutcome.response 404 "x") true).logs
       = [LogEvent.fetchStatus "out/a.js" 404] ∧
     (outputFileForKarma { karmaOutput := some "build_test", karmaFilter := none } "out/a.js"
        (FetchOutcome.response 404 "x") true).written = none ∧
     (outputFileForKarma { karmaOutput := some "build_test", karmaFilter := none } "out/a.js"
        (FetchOutcome.netFailure "ECONNREFUSED") true).logs
       = [LogEvent.requestFailed "out/a.js" "ECONNREFUSED"] ∧
     (outputFileForKarma { karmaOutput := some "build_test", karmaFilter := none } "out/a.js"
        (FetchOutcome.netFailure "ECONNREFUSED") true).written = none ∧
     processPublishes { karmaOutput := some "build_test", karmaFilter := none }
        [("out/a.js", FetchOutcome.response 404 "x", true),
         ("out/b.js", FetchOutcome.response 200 "content", true)]
       = [outputFileForKarma { karmaOutput := some "build_test", karmaFilter := none } "out/a.js"
            (FetchOutcome.response 404 "x") true,
          outputFileForKarma { karmaOutput := some "build_test", karmaFilter := none } "out/b.js"
            (FetchOutcome.response 200 "content") true] ∧
     (outputFileForKarma { karmaOutput := some "build_test", karmaFilter := none } "out/b.js"
        (FetchOutcome.response 200 "content") true).written.isSome = true) :=
  ⟨by decide,
   c9_publish_failure_isolated "build_test" "out/a.js" "out/b.js" "x" "content"
     "ECONNREFUSED" 404 true none (by decide)⟩

/-- C10: a write-intent arriving while no round is running
(`status === Status.Done`) logs the anomaly error, does not throw (the
hook is a total function) and still records the path in the pending set;
a later flush with `ok = false` leaves the pending set untouched, and the
first flush with `ok = true` (with a staging root configured) issues the
publish request for the recorded path. -/
theorem c10_idle_write_recorded_and_published
    (st : TsState) (file : String) (ko : String)
    (hst : st.status = Status.Done) :
    LogEvent.unexpectedWrite file ∈ (writeFileHook file st).logs ∧
    file ∈ (writeFileHook file st).state.pendingWriteFiles ∧
    (∀ st2 : TsState, (flushWrites (some ko) false st2).state = st2) ∧
    (∀ st3 : TsState, file ∈ st3.pendingWriteFiles →
      replaceFirst file st3.absBuildDir ∈ (flushWrites (some ko) true st3).requested) := by
  refine ⟨?_, ?_, ?_, ?_⟩
  · simp [writeFileHook, hst]
  · exact mem_insertPending_self _ _
  · intro st2
    rw [flushWrites_skip]
  · intro st3 hmem
    have hne : st3.pendingWriteFiles ≠ [] := by
      intro h
      rw [h] at hmem
      simp at hmem
    rw [flushWrites_run ko _ hne]
    exact List.mem_map_of_mem _ hmem

/-- C10 witness: an idle-state write of `proj/out/a.js`, later flushed. -/
theorem c10_idle_write_recorded_and_published_witness :
    ((initTsState "proj").status = Status.Done) ∧
    (LogEvent.unexpectedWrite "proj/out/a.js"
       ∈ (writeFileHook "proj/out/a.js" (initTsState "proj")).logs ∧
     "proj/out/a.js"
       ∈ (writeFileHook "proj/out/a.js" (initTsState "proj")).state.pendingWriteFiles ∧
     (∀ st2 : TsState, (flushWrites (some "bt") false st2).state = st2) ∧
     (∀ st3 : TsState, "proj/out/a.js" ∈ st3.pendingWriteFiles →
       replaceFirst "proj/out/a.js" st3.absBuildDir
         ∈ (flushWrites (some "bt") true st3).requested)) :=
  ⟨by decide,
   c10_idle_write_recorded_and_published (initTsState "proj") "proj/out/a.js" "bt"
     (by decide)⟩

end TsEsKarma
